import Mathlib

/-!
Verification of the event-triggered UAV control repository.

The embedding mirrors the three core Python components:
  * SixRotorUAV        (src/UAV/six_rotor_uav.py)    — over the reals, since the
    rotation matrix uses sine and cosine;
  * DisturbanceObserver (src/UAV/disturbance_observer.py) — over the rationals
    (pure field arithmetic), so concrete witnesses evaluate by decide;
  * FDICompensator      (src/UAV/fdi_compensator.py)      — over the rationals.

Vectors of length 3 are a structure Vec3; 3x3 matrices are three row vectors.
NumPy elementwise operations become componentwise operations; NumPy matrix-vector
dot products become Mat3.mulVec.  Python methods that mutate an attribute and
return it are modelled as functions returning the pair (new object, returned value).
-/

/-- A 3-vector, mirroring a NumPy array of length 3 such as the disturbance,
the thrust direction or the velocity slice of the state. -/
structure Vec3 (α : Type) where
  x : α
  y : α
  z : α
deriving DecidableEq, Repr

instance {α : Type} [Add α] : Add (Vec3 α) where
  add a b := ⟨a.x + b.x, a.y + b.y, a.z + b.z⟩

instance {α : Type} [Sub α] : Sub (Vec3 α) where
  sub a b := ⟨a.x - b.x, a.y - b.y, a.z - b.z⟩

instance {α : Type} [Neg α] : Neg (Vec3 α) where
  neg a := ⟨-a.x, -a.y, -a.z⟩

instance {α : Type} [Zero α] : Zero (Vec3 α) where
  zero := ⟨0, 0, 0⟩

instance {α : Type} [Mul α] : SMul α (Vec3 α) where
  smul c a := ⟨c * a.x, c * a.y, c * a.z⟩

/-- Elementwise division of a NumPy vector by a scalar, as in velocity / dt. -/
instance {α : Type} [Div α] : HDiv (Vec3 α) α (Vec3 α) where
  hDiv a c := ⟨a.x / c, a.y / c, a.z / c⟩

/-- A 3x3 matrix given by its rows, mirroring a NumPy 3x3 array. -/
structure Mat3 (α : Type) where
  r1 : Vec3 α
  r2 : Vec3 α
  r3 : Vec3 α
deriving DecidableEq, Repr

/-- Dot product of two 3-vectors. -/
def Vec3.dot {α : Type} [Mul α] [Add α] (a b : Vec3 α) : α :=
  a.x * b.x + a.y * b.y + a.z * b.z

/-- Matrix-vector product, mirroring np.dot of a 3x3 matrix and a 3-vector. -/
def Mat3.mulVec {α : Type} [Mul α] [Add α] (m : Mat3 α) (v : Vec3 α) : Vec3 α :=
  ⟨m.r1.dot v, m.r2.dot v, m.r3.dot v⟩

/-- The diagonal matrix np.diag of three coefficients (the air-resistance
matrix Gamma of the UAV model). -/
def Mat3.diag {α : Type} [Zero α] (d : Vec3 α) : Mat3 α :=
  ⟨⟨d.x, 0, 0⟩, ⟨0, d.y, 0⟩, ⟨0, 0, d.z⟩⟩

/-- The identity matrix np.eye of size 3 (the default gain matrix of the observer). -/
def Mat3.identity {α : Type} [Zero α] [One α] : Mat3 α :=
  ⟨⟨1, 0, 0⟩, ⟨0, 1, 0⟩, ⟨0, 0, 1⟩⟩

@[simp] lemma Vec3.add_def {α : Type} [Add α] (a b : Vec3 α) :
    a + b = ⟨a.x + b.x, a.y + b.y, a.z + b.z⟩ := rfl

@[simp] lemma Vec3.sub_def {α : Type} [Sub α] (a b : Vec3 α) :
    a - b = ⟨a.x - b.x, a.y - b.y, a.z - b.z⟩ := rfl

@[simp] lemma Vec3.neg_def {α : Type} [Neg α] (a : Vec3 α) :
    -a = ⟨-a.x, -a.y, -a.z⟩ := rfl

@[simp] lemma Vec3.smul_def {α : Type} [Mul α] (c : α) (a : Vec3 α) :
    c • a = ⟨c * a.x, c * a.y, c * a.z⟩ := rfl

@[simp] lemma Vec3.div_def {α : Type} [Div α] (a : Vec3 α) (c : α) :
    a / c = ⟨a.x / c, a.y / c, a.z / c⟩ := rfl

@[simp] lemma Vec3.zero_def {α : Type} [Zero α] : (0 : Vec3 α) = ⟨0, 0, 0⟩ := rfl

lemma Vec3.sub_self {α : Type} [AddGroup α] (a : Vec3 α) : a - a = 0 := by
  simp

/-! ## FDICompensator (src/UAV/fdi_compensator.py) -/

/-- The FDI compensator: number of rotors, fault-detection threshold and the
per-rotor health flags (1 healthy, 0 faulty), a NumPy array of floats in the
source. -/
structure FDICompensator where
  num_rotors : Nat
  threshold : ℚ
  rotor_states : List ℚ
deriving DecidableEq, Repr

/-- Constructor of FDICompensator: all rotors start healthy (np.ones). -/
def FDICompensator.init (n : Nat) (t : ℚ) : FDICompensator :=
  ⟨n, t, List.replicate n 1⟩

/-- detect_faults: elementwise, health is 1 when the absolute speed error is
strictly below the threshold, else 0; the result overwrites rotor_states and
is also returned. -/
def FDICompensator.detect_faults (f : FDICompensator) (rotor_speeds expected_speeds : List ℚ) :
    FDICompensator × List ℚ :=
  let states := List.zipWith
    (fun m e => if |m - e| < f.threshold then (1 : ℚ) else 0) rotor_speeds expected_speeds
  (⟨f.num_rotors, f.threshold, states⟩, states)

/-- compensate_thrust: when no rotor is healthy return np.zeros of length
num_rotors; otherwise give desired_thrust divided by the sum of the health
flags to each rotor whose flag equals 1 and 0 to the rest (np.where). -/
def FDICompensator.compensate_thrust (f : FDICompensator) (desired_thrust : ℚ)
    (rotor_states : List ℚ) : List ℚ :=
  let healthy_rotors := rotor_states.sum
  if healthy_rotors = 0 then List.replicate f.num_rotors 0
  else rotor_states.map (fun s => if s = 1 then desired_thrust / healthy_rotors else 0)

/-- For a 0/1 list of health flags, the NumPy sum of the flags equals the
number of flags equal to 1. -/
lemma sum_eq_count_ones (l : List ℚ) (h : ∀ s ∈ l, s = 0 ∨ s = 1) :
    l.sum = (l.countP (fun s => s = 1) : ℚ) := by
  induction l with
  | nil => simp
  | cons a t ih =>
    have ha := h a (List.mem_cons_self a t)
    have ht : ∀ s ∈ t, s = 0 ∨ s = 1 := fun s hs => h s (List.mem_cons_of_mem a hs)
    rcases ha with h0 | h1
    · subst h0
      simp [List.countP_cons, ih ht]
    · subst h1
      simp [List.countP_cons, ih ht]
      ring

/-- Claim C5: for equal-length measured and expected speed lists, detect_faults
stores and returns flags that are 1 exactly when the absolute error is strictly
below the threshold and 0 otherwise; an error exactly at the threshold gives
flag 0. -/
theorem detect_faults_spec (f : FDICompensator) (ms es : List ℚ)
    (h : ms.length = es.length) :
    (f.detect_faults ms es).1.rotor_states = (f.detect_faults ms es).2 ∧
    (f.detect_faults ms es).2.length = ms.length ∧
    (∀ i (hm : i < ms.length) (he : i < es.length)
        (hr : i < (f.detect_faults ms es).2.length),
      (f.detect_faults ms es).2.get ⟨i, hr⟩ =
        (if |ms.get ⟨i, hm⟩ - es.get ⟨i, he⟩| < f.threshold then (1 : ℚ) else 0)) ∧
    (∀ i (hm : i < ms.length) (he : i < es.length)
        (hr : i < (f.detect_faults ms es).2.length),
      |ms.get ⟨i, hm⟩ - es.get ⟨i, he⟩| = f.threshold →
      (f.detect_faults ms es).2.get ⟨i, hr⟩ = 0) := by
  refine ⟨rfl, ?_, ?_, ?_⟩
  · simp [FDICompensator.detect_faults, h]
  · intro i hm he hr
    simp [FDICompensator.detect_faults, List.get_eq_getElem, List.getElem_zipWith]
  · intro i hm he hr hb
    have hb' : ¬ |ms.get ⟨i, hm⟩ - es.get ⟨i, he⟩| < f.threshold := by
      rw [hb]
      exact lt_irrefl _
    simp only [List.get_eq_getElem] at hb'
    simp [FDICompensator.detect_faults, List.get_eq_getElem, List.getElem_zipWith, hb']

/-- Witness for C5 at a concrete input: threshold 1/10, measured [1, 2, 3],
expected [1, 3, 29/10]; rotor 2 has absolute error exactly 1/10, the
threshold, and so is flagged faulty. -/
theorem detect_faults_spec_witness :
    ([(1 : ℚ), 2, 3].length = [(1 : ℚ), 3, 29/10].length) ∧
    ((FDICompensator.init 3 (1/10)).detect_faults [1, 2, 3] [1, 3, 29/10]).2.get
      ⟨2, by decide⟩ = 0 := by
  refine ⟨rfl, ?_⟩
  exact (detect_faults_spec (FDICompensator.init 3 (1/10)) [1, 2, 3] [1, 3, 29/10]
    rfl).2.2.2 2 (by decide) (by decide) (by decide)
    (by show |(3 : ℚ) - 29/10| = 1/10; norm_num)

/-- Claim C3: with health flags in 0/1 of length num_rotors, compensate_thrust
returns all zeros of length num_rotors when no rotor is healthy, and otherwise
maps each flag-1 rotor to desired_thrust divided by the number of healthy
rotors and each other rotor to 0; the result always has length num_rotors. -/
theorem compensate_thrust_spec (f : FDICompensator) (d : ℚ) (states : List ℚ)
    (h01 : ∀ s ∈ states, s = 0 ∨ s = 1) (hlen : states.length = f.num_rotors) :
    (states.countP (fun s => s = 1) = 0 →
      f.compensate_thrust d states = List.replicate f.num_rotors 0) ∧
    (states.countP (fun s => s = 1) ≠ 0 →
      f.compensate_thrust d states =
        states.map (fun s =>
          if s = 1 then d / (states.countP (fun s => s = 1) : ℚ) else 0)) ∧
    (f.compensate_thrust d states).length = f.num_rotors := by
  have hsum := sum_eq_count_ones states h01
  refine ⟨?_, ?_, ?_⟩
  · intro hz
    have hz' : states.sum = 0 := by
      rw [hsum]
      exact_mod_cast hz
    simp [FDICompensator.compensate_thrust, hz']
  · intro hnz
    have hs : states.sum ≠ 0 := by
      rw [hsum]
      exact_mod_cast hnz
    simp only [FDICompensator.compensate_thrust]
    rw [if_neg hs]
    simp only [hsum]
  · simp only [FDICompensator.compensate_thrust]
    split
    · simp
    · simp [hlen]

/-- Witness for C3 at the spec's concrete input: six rotors, health flags
[1,1,1,0,0,0], desired thrust 300 gives [100,100,100,0,0,0]; the all-faulty
flag list gives the all-zero allocation. -/
theorem compensate_thrust_spec_witness :
    (∀ s ∈ [(1 : ℚ), 1, 1, 0, 0, 0], s = 0 ∨ s = 1) ∧
    ([(1 : ℚ), 1, 1, 0, 0, 0].length = (FDICompensator.init 6 (1/10)).num_rotors) ∧
    (FDICompensator.init 6 (1/10)).compensate_thrust 300 [1, 1, 1, 0, 0, 0] =
      [100, 100, 100, 0, 0, 0] ∧
    (FDICompensator.init 6 (1/10)).compensate_thrust 300 [0, 0, 0, 0, 0, 0] =
      [0, 0, 0, 0, 0, 0] := by
  refine ⟨by decide, rfl, ?_, ?_⟩
  · have hc : List.countP (fun s => s = (1 : ℚ)) [1, 1, 1, 0, 0, 0] = 3 := by decide
    have h := (compensate_thrust_spec (FDICompensator.init 6 (1/10)) 300
      [1, 1, 1, 0, 0, 0] (by decide) rfl).2.1 (by decide)
    rw [h]
    simp only [hc]
    norm_num
  · have h := (compensate_thrust_spec (FDICompensator.init 6 (1/10)) 300
      [0, 0, 0, 0, 0, 0] (by decide) rfl).1 (by decide)
    rw [h]
    simp [List.replicate]

/-! ## DisturbanceObserver (src/UAV/disturbance_observer.py) -/

/-- The 6-component UAV state [x, y, z, vx, vy, vz], split into its position
slice and its velocity slice. -/
structure VehicleState (α : Type) where
  pos : Vec3 α
  vel : Vec3 α
deriving DecidableEq, Repr

/-- The disturbance observer: the mass M, the 3x3 observer gain matrix and the
accumulated disturbance estimate. -/
structure DisturbanceObserver where
  M : ℚ
  gain_matrix : Mat3 ℚ
  estimated_disturbance : Vec3 ℚ
deriving DecidableEq, Repr

/-- Constructor of DisturbanceObserver with an explicit gain matrix; the
estimate starts at np.zeros of length 3. -/
def DisturbanceObserver.init (mass : ℚ) (gain : Mat3 ℚ) : DisturbanceObserver :=
  ⟨mass, gain, 0⟩

/-- Constructor of DisturbanceObserver with the default gain matrix np.eye of
size 3, the case gain_matrix is None in the source. -/
def DisturbanceObserver.initDefault (mass : ℚ) : DisturbanceObserver :=
  DisturbanceObserver.init mass Mat3.identity

/-- The nominal acceleration computed inside update: thrust over mass along
the thrust direction minus the hard-coded gravity vector np.array of
[0, 0, 9.81]. -/
def nominal_accel (M : ℚ) (thrust_direction : Vec3 ℚ) (total_thrust : ℚ) : Vec3 ℚ :=
  (total_thrust / M) • thrust_direction - ⟨0, 0, 981/100⟩

/-- Modelled from the spec, for comparison only: the nominal acceleration the
observer would compute if it used the vehicle gravity constant g instead of
the hard-coded 9.81 (no such parameter exists in the source constructor). -/
def nominal_accel_with_g (g M : ℚ) (thrust_direction : Vec3 ℚ) (total_thrust : ℚ) : Vec3 ℚ :=
  (total_thrust / M) • thrust_direction - ⟨0, 0, g⟩

/-- update: the disturbance estimate is advanced by dt times the gain matrix
applied to the difference between velocity / dt and the nominal acceleration;
the new estimate is stored and also returned. -/
def DisturbanceObserver.update (o : DisturbanceObserver) (state : VehicleState ℚ)
    (thrust_direction : Vec3 ℚ) (total_thrust : ℚ) (dt : ℚ) :
    DisturbanceObserver × Vec3 ℚ :=
  let velocity := state.vel
  let actual_accel := velocity / dt
  let err := actual_accel - nominal_accel o.M thrust_direction total_thrust
  let est := o.estimated_disturbance + dt • (o.gain_matrix.mulVec err)
  (⟨o.M, o.gain_matrix, est⟩, est)

/-- One simulation tick of arguments to DisturbanceObserver.update. -/
structure ObserverCall where
  state : VehicleState ℚ
  thrust_direction : Vec3 ℚ
  total_thrust : ℚ
  dt : ℚ
deriving DecidableEq, Repr

/-- A finite sequence of update calls applied in order, each storing its new
estimate into the observer. -/
def DisturbanceObserver.run (o : DisturbanceObserver) (calls : List ObserverCall) :
    DisturbanceObserver :=
  calls.foldl
    (fun o c => (o.update c.state c.thrust_direction c.total_thrust c.dt).1) o

/-- Claim C2: for nonzero dt, update adds exactly dt times the gain matrix
applied to velocity / dt minus the nominal acceleration with gravity constant
9.81 to the stored estimate, returns the accumulated estimate, and changes no
other field (no reset between calls). -/
theorem observer_update_spec (o : DisturbanceObserver) (state : VehicleState ℚ)
    (td : Vec3 ℚ) (tt dt : ℚ) (hdt : dt ≠ 0) :
    (o.update state td tt dt).2 =
      o.estimated_disturbance +
        dt • (o.gain_matrix.mulVec
          (state.vel / dt - ((tt / o.M) • td - (⟨0, 0, 981/100⟩ : Vec3 ℚ)))) ∧
    (o.update state td tt dt).1.estimated_disturbance = (o.update state td tt dt).2 ∧
    (o.update state td tt dt).1.M = o.M ∧
    (o.update state td tt dt).1.gain_matrix = o.gain_matrix :=
  ⟨rfl, rfl, rfl, rfl⟩

/-- Witness for C2 at a concrete input: mass 2, default gain, velocity
(1, 2, 3), thrust direction (0, 0, 1), total thrust 4 and dt 1 give the
estimate (1, 2, 1081/100). -/
theorem observer_update_spec_witness :
    ((1 : ℚ) ≠ 0) ∧
    ((DisturbanceObserver.initDefault 2).update ⟨⟨0, 0, 0⟩, ⟨1, 2, 3⟩⟩
      ⟨0, 0, 1⟩ 4 1).2 = (⟨1, 2, 1081/100⟩ : Vec3 ℚ) := by
  constructor
  · norm_num
  · rw [(observer_update_spec (DisturbanceObserver.initDefault 2) ⟨⟨0, 0, 0⟩, ⟨1, 2, 3⟩⟩
      ⟨0, 0, 1⟩ 4 1 (by norm_num)).1]
    simp [DisturbanceObserver.initDefault, DisturbanceObserver.init,
      Mat3.identity, Mat3.mulVec, Vec3.dot]
    norm_num

/-- If the estimate is zero and every call has its velocity / dt equal to the
nominal acceleration for the mass of the observer, running the calls leaves the
estimate at zero. -/
lemma observer_run_zero (o : DisturbanceObserver) (calls : List ObserverCall)
    (hest : o.estimated_disturbance = 0)
    (h : ∀ c ∈ calls, c.state.vel / c.dt =
      nominal_accel o.M c.thrust_direction c.total_thrust) :
    (o.run calls).estimated_disturbance = 0 := by
  induction calls generalizing o with
  | nil => simpa [DisturbanceObserver.run] using hest
  | cons c t ih =>
    have hc := h c (List.mem_cons_self c t)
    have hstep : ((o.update c.state c.thrust_direction c.total_thrust
        c.dt).1).estimated_disturbance = 0 := by
      simp [DisturbanceObserver.update, hc, hest, Mat3.mulVec, Vec3.dot]
    have ht : ∀ c' ∈ t, c'.state.vel / c'.dt =
        nominal_accel ((o.update c.state c.thrust_direction c.total_thrust
          c.dt).1).M c'.thrust_direction c'.total_thrust := by
      intro c' hc'
      exact h c' (List.mem_cons_of_mem c hc')
    simpa [DisturbanceObserver.run, List.foldl_cons]
      using ih _ hstep ht

/-- Claim C8: starting from construction (estimate (0,0,0)), any finite
sequence of update calls in which every call has velocity / dt equal to its nominal
acceleration leaves the accumulated estimate at (0,0,0). -/
theorem observer_zero_error_fixed_point (mass : ℚ) (gain : Mat3 ℚ)
    (calls : List ObserverCall)
    (h : ∀ c ∈ calls, c.state.vel / c.dt =
      nominal_accel mass c.thrust_direction c.total_thrust) :
    ((DisturbanceObserver.init mass gain).run calls).estimated_disturbance = 0 :=
  observer_run_zero _ _ rfl h

/-- Witness for C8 at a concrete input: mass 2, identity gain, one call with
total thrust 2, thrust direction (0, 0, 1), dt 1 and velocity chosen so that
velocity / dt equals the nominal acceleration (0, 0, -881/100). -/
theorem observer_zero_error_fixed_point_witness :
    (∀ c ∈ [ObserverCall.mk ⟨⟨0, 0, 0⟩, ⟨0, 0, -881/100⟩⟩ ⟨0, 0, 1⟩ 2 1],
      c.state.vel / c.dt = nominal_accel 2 c.thrust_direction c.total_thrust) ∧
    ((DisturbanceObserver.init 2 Mat3.identity).run
      [ObserverCall.mk ⟨⟨0, 0, 0⟩, ⟨0, 0, -881/100⟩⟩ ⟨0, 0, 1⟩ 2 1]).estimated_disturbance
      = 0 := by
  have h : ∀ c ∈ [ObserverCall.mk ⟨⟨0, 0, 0⟩, ⟨0, 0, -881/100⟩⟩ ⟨0, 0, 1⟩ 2 1],
      c.state.vel / c.dt = nominal_accel 2 c.thrust_direction c.total_thrust := by
    intro c hc
    simp only [List.mem_singleton] at hc
    subst hc
    norm_num [nominal_accel]
  exact ⟨h, observer_zero_error_fixed_point 2 Mat3.identity _ h⟩

/-- Claim C10: the gravity term inside the nominal acceleration of the observer is
the hard-coded 9.81; for a vehicle gravity constant g, the error signal that
uses g equals the error signal of the observer plus (0, 0, g - 9.81). -/
theorem observer_gravity_hardcoded (o : DisturbanceObserver)
    (state : VehicleState ℚ) (g M tt dt : ℚ) (td v : Vec3 ℚ) :
    nominal_accel M td tt = nominal_accel_with_g (981/100) M td tt ∧
    (o.update state td tt dt).2 =
      o.estimated_disturbance +
        dt • (o.gain_matrix.mulVec
          (state.vel / dt - nominal_accel o.M td tt)) ∧
    v / dt - nominal_accel_with_g g M td tt =
      (v / dt - nominal_accel M td tt) + ⟨0, 0, g - 981/100⟩ := by
  refine ⟨rfl, rfl, ?_⟩
  simp [nominal_accel, nominal_accel_with_g]
  ring

/-! ## SixRotorUAV (src/UAV/six_rotor_uav.py) -/

/-- compute_total_thrust: the total thrust is p_const times the sum of the
squared rotor speeds. -/
def compute_total_thrust {α : Type} [Semiring α] (p_const : α) (rotor_speeds : List α) : α :=
  p_const * (rotor_speeds.map (fun s => s * s)).sum

/-- The six-rotor UAV model: mass M, gravity G, aerodynamic matrix Gamma
(built as np.diag of the three air-resistance coefficients), thrust constant
p_const, the 6-component state and the Euler angles (roll, pitch, yaw). -/
structure SixRotorUAV where
  M : ℝ
  G : ℝ
  Gamma : Mat3 ℝ
  p_const : ℝ
  state : VehicleState ℝ
  euler : Vec3 ℝ

/-- Constructor of SixRotorUAV: Gamma is the diagonal of the air-resistance
coefficients; state and Euler angles start at zero. -/
def SixRotorUAV.init (mass g : ℝ) (air_resistance : Vec3 ℝ) (p_const : ℝ) : SixRotorUAV :=
  ⟨mass, g, Mat3.diag air_resistance, p_const, ⟨⟨0, 0, 0⟩, ⟨0, 0, 0⟩⟩, ⟨0, 0, 0⟩⟩

/-- set_euler_angles replaces the stored attitude. -/
def SixRotorUAV.set_euler_angles (u : SixRotorUAV) (roll pitch yaw : ℝ) : SixRotorUAV :=
  { u with euler := ⟨roll, pitch, yaw⟩ }

/-- set_state replaces the stored 6-component state. -/
def SixRotorUAV.set_state (u : SixRotorUAV) (x y z vx vy vz : ℝ) : SixRotorUAV :=
  { u with state := ⟨⟨x, y, z⟩, ⟨vx, vy, vz⟩⟩ }

/-- rotation_matrix: the ZYX (yaw-pitch-roll) body-to-inertial rotation matrix
of the source, entry by entry. -/
noncomputable def rotation_matrix (roll pitch yaw : ℝ) : Mat3 ℝ :=
  let cr := Real.cos roll
  let sr := Real.sin roll
  let cp := Real.cos pitch
  let sp := Real.sin pitch
  let cy := Real.cos yaw
  let sy := Real.sin yaw
  ⟨⟨cy * cp, cy * sp * sr - sy * cr, cy * sp * cr + sy * sr⟩,
   ⟨sy * cp, sy * sp * sr + cy * cr, sy * sp * cr - cy * sr⟩,
   ⟨-sp, cp * sr, cp * cr⟩⟩

/-- get_thrust_direction: the third column of the rotation matrix at the
stored Euler angles. -/
noncomputable def SixRotorUAV.get_thrust_direction (u : SixRotorUAV) : Vec3 ℝ :=
  let R := rotation_matrix u.euler.x u.euler.y u.euler.z
  ⟨R.r1.z, R.r2.z, R.r3.z⟩

/-- update_dynamics: one forward-Euler step.  Acceleration is thrust over mass
along the thrust direction, minus gravity, minus air resistance over mass,
plus the disturbance; position is advanced with the pre-step velocity and
velocity with the acceleration; the new state is stored and returned. -/
noncomputable def SixRotorUAV.update_dynamics (u : SixRotorUAV) (rotor_speeds : List ℝ)
    (dt : ℝ) (disturbance : Vec3 ℝ) : SixRotorUAV :=
  let P_bar := compute_total_thrust u.p_const rotor_speeds
  let thrust_dir := u.get_thrust_direction
  let velocity := u.state.vel
  let acceleration := (P_bar / u.M) • thrust_dir - (⟨0, 0, u.G⟩ : Vec3 ℝ)
    - (u.Gamma.mulVec velocity) / u.M + disturbance
  { u with state := ⟨u.state.pos + dt • velocity, velocity + dt • acceleration⟩ }

/-- The Euclidean norm of a 3-vector, for the unit-norm property of the
thrust direction. -/
noncomputable def Vec3.norm (v : Vec3 ℝ) : ℝ :=
  Real.sqrt (v.x ^ 2 + v.y ^ 2 + v.z ^ 2)

/-- Claim C1: update_dynamics performs exactly the forward-Euler step of the
source on the stored state, with acceleration thrust over mass along the
current thrust direction minus gravity minus air resistance over mass plus
the disturbance, and it changes no other field of the model. -/
theorem update_dynamics_spec (u : SixRotorUAV) (rotor_speeds : List ℝ) (dt : ℝ)
    (disturbance : Vec3 ℝ) :
    (u.update_dynamics rotor_speeds dt disturbance).state =
      ⟨u.state.pos + dt • u.state.vel,
       u.state.vel + dt •
         ((compute_total_thrust u.p_const rotor_speeds / u.M) • u.get_thrust_direction
           - ⟨0, 0, u.G⟩ - (u.Gamma.mulVec u.state.vel) / u.M + disturbance)⟩ ∧
    (u.update_dynamics rotor_speeds dt disturbance).M = u.M ∧
    (u.update_dynamics rotor_speeds dt disturbance).G = u.G ∧
    (u.update_dynamics rotor_speeds dt disturbance).Gamma = u.Gamma ∧
    (u.update_dynamics rotor_speeds dt disturbance).p_const = u.p_const ∧
    (u.update_dynamics rotor_speeds dt disturbance).euler = u.euler :=
  ⟨rfl, rfl, rfl, rfl, rfl, rfl⟩

/-- The sum of squared speeds is non-negative. -/
lemma sum_sq_nonneg (l : List ℝ) : 0 ≤ (l.map (fun s => s * s)).sum := by
  induction l with
  | nil => simp
  | cons a t ih =>
    simp only [List.map_cons, List.sum_cons]
    exact add_nonneg (mul_self_nonneg a) ih

/-- Componentwise domination in absolute value gives domination of the sums
of squares. -/
lemma sum_sq_mono : ∀ (a b : List ℝ), a.length = b.length →
    (∀ i (ha : i < a.length) (hb : i < b.length), |a.get ⟨i, ha⟩| ≤ |b.get ⟨i, hb⟩|) →
    (a.map (fun s => s * s)).sum ≤ (b.map (fun s => s * s)).sum := by
  intro a
  induction a with
  | nil =>
    intro b hlen _
    have : b = [] := by
      cases b with
      | nil => rfl
      | cons y ys => simp at hlen
    subst this
    simp
  | cons x xs ih =>
    intro b hlen habs
    cases b with
    | nil => simp at hlen
    | cons y ys =>
      simp only [List.map_cons, List.sum_cons]
      have hlen' : xs.length = ys.length := by
        simpa using hlen
      have hhead : |x| ≤ |y| := habs 0 (by simp) (by simp)
      have hx : x * x ≤ y * y := by
        have := mul_self_le_mul_self (abs_nonneg x) hhead
        simpa [abs_mul_abs_self] using this
      have htail : (xs.map (fun s => s * s)).sum ≤ (ys.map (fun s => s * s)).sum := by
        apply ih ys hlen'
        intro i hia hib
        exact habs (i + 1) (by simpa using Nat.succ_lt_succ hia)
          (by simpa using Nat.succ_lt_succ hib)
      exact add_le_add hx htail

/-- Claim C4: for a non-negative thrust constant, compute_total_thrust of a
non-empty speed list is the constant times the sum of squares, is always
non-negative, is monotone under componentwise domination of absolute speeds,
and vanishes on the all-zero speed list of any rotor count. -/
theorem compute_total_thrust_spec (p : ℝ) (hp : 0 ≤ p) :
    (∀ speeds : List ℝ, speeds ≠ [] →
      compute_total_thrust p speeds = p * (speeds.map (fun s => s * s)).sum) ∧
    (∀ speeds : List ℝ, 0 ≤ compute_total_thrust p speeds) ∧
    (∀ a b : List ℝ, a.length = b.length →
      (∀ i (ha : i < a.length) (hb : i < b.length), |a.get ⟨i, ha⟩| ≤ |b.get ⟨i, hb⟩|) →
      compute_total_thrust p a ≤ compute_total_thrust p b) ∧
    (∀ n : Nat, compute_total_thrust p (List.replicate n 0) = 0) := by
  refine ⟨fun _ _ => rfl, ?_, ?_, ?_⟩
  · intro speeds
    exact mul_nonneg hp (sum_sq_nonneg speeds)
  · intro a b hlen habs
    exact mul_le_mul_of_nonneg_left (sum_sq_mono a b hlen habs) hp
  · intro n
    simp [compute_total_thrust, List.map_replicate]

/-- Witness for C4 at a concrete input: thrust constant 1 and speeds [3, 4]
give total thrust 25. -/
theorem compute_total_thrust_spec_witness :
    ((0 : ℝ) ≤ 1) ∧ compute_total_thrust (1 : ℝ) [3, 4] = 25 := by
  refine ⟨by norm_num, ?_⟩
  rw [(compute_total_thrust_spec (1 : ℝ) (by norm_num)).1 [3, 4] (by simp)]
  norm_num

/-- Counterexample for C6: compute_total_thrust applied to the empty speed
list is an ordinary value, 0 — the sum over an empty NumPy array is 0.0 and
no error is raised. -/
theorem compute_total_thrust_empty_counterexample :
    compute_total_thrust (1 : ℝ) ([] : List ℝ) = 0 := by
  simp [compute_total_thrust]

/-- Amended C6: with an empty rotor-speed list, compute_total_thrust returns
0 for every thrust constant and update_dynamics silently proceeds with zero
total thrust; no error is raised. -/
theorem compute_total_thrust_empty_spec (p : ℝ) (u : SixRotorUAV) (dt : ℝ)
    (disturbance : Vec3 ℝ) :
    compute_total_thrust p ([] : List ℝ) = 0 ∧
    (u.update_dynamics [] dt disturbance).state.vel =
      u.state.vel + dt • (((0 : ℝ) / u.M) • u.get_thrust_direction - ⟨0, 0, u.G⟩
        - (u.Gamma.mulVec u.state.vel) / u.M + disturbance) := by
  constructor
  · simp [compute_total_thrust]
  · simp only [SixRotorUAV.update_dynamics, compute_total_thrust, List.map_nil,
      List.sum_nil, mul_zero]

/-- Claim C9: the thrust direction has Euclidean norm 1 at every attitude,
and at zero roll, pitch and yaw it is (0, 0, 1). -/
theorem thrust_direction_unit_norm (u : SixRotorUAV) :
    Vec3.norm u.get_thrust_direction = 1 ∧
    (u.euler = ⟨0, 0, 0⟩ → u.get_thrust_direction = ⟨0, 0, 1⟩) := by
  constructor
  · have hroll := Real.sin_sq_add_cos_sq u.euler.x
    have hpitch := Real.sin_sq_add_cos_sq u.euler.y
    have hyaw := Real.sin_sq_add_cos_sq u.euler.z
    have hsq : u.get_thrust_direction.x ^ 2 + u.get_thrust_direction.y ^ 2 +
        u.get_thrust_direction.z ^ 2 = 1 := by
      show (Real.cos u.euler.z * Real.sin u.euler.y * Real.cos u.euler.x +
          Real.sin u.euler.z * Real.sin u.euler.x) ^ 2 +
        (Real.sin u.euler.z * Real.sin u.euler.y * Real.cos u.euler.x -
          Real.cos u.euler.z * Real.sin u.euler.x) ^ 2 +
        (Real.cos u.euler.y * Real.cos u.euler.x) ^ 2 = 1
      linear_combination (Real.sin u.euler.y ^ 2 * Real.cos u.euler.x ^ 2 +
          Real.sin u.euler.x ^ 2) * hyaw +
        Real.cos u.euler.x ^ 2 * hpitch + hroll
    simp only [Vec3.norm, hsq]
    exact Real.sqrt_one
  · intro h
    simp [SixRotorUAV.get_thrust_direction, rotation_matrix, h]

/-- Witness for C9: the UAV constructed with zero attitude has thrust
direction exactly (0, 0, 1). -/
theorem thrust_direction_unit_norm_witness :
    ((SixRotorUAV.init 6 (981/100) ⟨1/10, 1/10, 1/10⟩ (1/20)).euler =
      (⟨0, 0, 0⟩ : Vec3 ℝ)) ∧
    (SixRotorUAV.init 6 (981/100) ⟨1/10, 1/10, 1/10⟩ (1/20)).get_thrust_direction =
      (⟨0, 0, 1⟩ : Vec3 ℝ) :=
  ⟨rfl, (thrust_direction_unit_norm
    (SixRotorUAV.init 6 (981/100) ⟨1/10, 1/10, 1/10⟩ (1/20))).2 rfl⟩
